import Mathlib

/-!
Verification of `src/build.py` (MultiEnvApp), a command-line wrapper that
composes and runs a `flutter build` invocation for a given flavor, platform
and debug/release mode.

The script is embedded shallowly:
* the composed command line is a `List String` of tokens;
* the external subprocess is an oracle `runner : List String → Nat`
  returning the exit code of the child process;
* each `print` statement of the script becomes an `OutputLine` event,
  rendered to the exact printed text by `render`;
* one simulated execution of the script yields a `RunOutcome`: the process
  exit code, the list of subprocess command lines actually started, and the
  stdout events in order.

Python semantics made explicit in the embedding:
* `sys.exit(1)` (line 38) terminates the process with exit code 1;
* `subprocess.run(cmd, check=True)` (line 41) raises `CalledProcessError`
  when the child exits non-zero; the exception is never caught, so the
  interpreter terminates with exit code 1 (the CPython exit status for an
  unhandled exception), regardless of the child's own exit code.
-/

namespace Build

/-- One line printed to stdout by the script, as a structured event.
`render` gives the exact text each event prints. -/
inductive OutputLine where
  | announce (cmd : List String)
  | success (platform flavor : String)
  | unsupported (platform : String)
  deriving Repr, DecidableEq

/-- The exact text printed for each `OutputLine` event, following the three
`print` statements of `src/build.py` (lines 37, 40, 42); Python's `print`
joins its arguments with single spaces. -/
def render : OutputLine → String
  | OutputLine.announce cmd => "🚀 打包命令： " ++ String.intercalate " " cmd
  | OutputLine.success platform flavor =>
      "✅ 打包完成：平台 = " ++ platform ++ " , 环境 = " ++ flavor
  | OutputLine.unsupported platform => "❌ 不支持的平台: " ++ platform

/-- Observable result of one simulated run of the script: final process exit
code, the subprocess invocations actually started (in order), and the stdout
events (in order). -/
structure RunOutcome where
  exitCode : Nat
  calls : List (List String)
  stdout : List OutputLine
  deriving Repr, DecidableEq

/-- The command-composition part of `build_flutter` (src/build.py lines
6-38): builds the token list for a supported platform, or `none` when the
platform is neither "android" nor "ios" (the source then prints an error and
exits; `build_flutter` below models that on the `none` case).

Line 8 of the source also computes `build_mode = "--release" if release else
"--debug"` into a local variable that the command construction never uses:
both branches recompute the same conditional when appending the mode token
(lines 20-23 and 32-35), which is what the trailing `++ [if release ...]`
mirrors here. The unused local is modelled by the top-level `build_mode`
definition below. -/
def compose_cmd (flavor platform : String) (release : Bool) : Option (List String) :=
  let target_file := "lib/main.dart"
  let dart_define := "--dart-define=ENV=" ++ flavor
  if platform = "android" then
    some (["flutter", "build", "apk",
           "--flavor", flavor,
           "-t", target_file,
           dart_define]
          ++ [if release then "--release" else "--debug"])
  else if platform = "ios" then
    some (["flutter", "build", "ios",
           "--flavor", flavor,
           "-t", target_file,
           dart_define]
          ++ [if release then "--release" else "--debug"])
  else
    none

/-- `build_flutter(flavor, platform, release)` (src/build.py lines 6-42),
with the subprocess modelled by the `runner` oracle.

* Unsupported platform (lines 36-38): print the error, exit 1, start no
  subprocess.
* Supported platform (lines 40-42): print the composed command, run it; on
  child exit code 0 print the success message and finish with exit code 0;
  on a non-zero child exit code `subprocess.run(..., check=True)` raises
  `CalledProcessError`, which is uncaught, so the process terminates with
  exit code 1 and the success message is never printed. -/
def build_flutter (flavor platform : String) (release : Bool)
    (runner : List String → Nat) : RunOutcome :=
  match compose_cmd flavor platform release with
  | some cmd =>
      let code := runner cmd
      if code = 0 then
        { exitCode := 0
          calls := [cmd]
          stdout := [OutputLine.announce cmd, OutputLine.success platform flavor] }
      else
        { exitCode := 1
          calls := [cmd]
          stdout := [OutputLine.announce cmd] }
  | none =>
      { exitCode := 1
        calls := []
        stdout := [OutputLine.unsupported platform] }

/-- The `build_mode` local of src/build.py line 8:
`build_mode = "--release" if release else "--debug"`. The command
construction never reads it (see `compose_cmd`). -/
def build_mode (release : Bool) : String :=
  if release then "--release" else "--debug"

/-- The mode token appended by the second if/else inside each platform
branch (src/build.py lines 20-23 and 32-35): both branches append
`"--release"` when `release` holds and `"--debug"` otherwise. -/
def appended_mode (release : Bool) : String :=
  if release then "--release" else "--debug"

/-- Variant of `compose_cmd` that reuses the precomputed `build_mode` value
instead of recomputing the conditional when appending the mode token; stated
by the spec to be observationally equivalent to the source's recomputation. -/
def compose_cmd_reuse (flavor platform : String) (release : Bool) : Option (List String) :=
  let target_file := "lib/main.dart"
  let dart_define := "--dart-define=ENV=" ++ flavor
  if platform = "android" then
    some (["flutter", "build", "apk",
           "--flavor", flavor,
           "-t", target_file,
           dart_define]
          ++ [build_mode release])
  else if platform = "ios" then
    some (["flutter", "build", "ios",
           "--flavor", flavor,
           "-t", target_file,
           dart_define]
          ++ [build_mode release])
  else
    none

/-- Parsed command-line arguments of the script (src/build.py lines 45-50):
required string options `--flavor` and `--platform`, optional boolean flag
`--debug` (argparse `store_true`, default false). -/
structure Args where
  flavor : String
  platform : String
  debug : Bool
  deriving Repr, DecidableEq

/-- Modelled from the spec: the argument parsing performed by the standard
library `argparse` parser configured at src/build.py lines 45-50 (the
parser's internals are library code outside this repository). Scans the
argument vector for `--flavor <value>`, `--platform <value>` and the bare
flag `--debug`; both required options must be present, `--debug` defaults to
absent (false). Accumulators carry the values seen so far. -/
def parse_argv_aux : List String → Option String → Option String → Bool → Option Args
  | [], Option.some f, Option.some p, d => Option.some { flavor := f, platform := p, debug := d }
  | [], _, _, _ => Option.none
  | "--flavor" :: v :: rest, _, p, d => parse_argv_aux rest (Option.some v) p d
  | "--platform" :: v :: rest, f, _, d => parse_argv_aux rest f (Option.some v) d
  | "--debug" :: rest, f, p, _ => parse_argv_aux rest f p true
  | _ :: _, _, _, _ => Option.none

/-- Modelled from the spec: entry to the argument scan with nothing seen yet. -/
def parse_argv (argv : List String) : Option Args :=
  parse_argv_aux argv Option.none Option.none false

/-- `main()` (src/build.py lines 44-56): parse the arguments, then call
`build_flutter(flavor=args.flavor, platform=args.platform,
release=not args.debug)`. On an argparse usage error (missing required
option) argparse terminates the process with exit code 2 before any build
logic runs. -/
def main (argv : List String) (runner : List String → Nat) : RunOutcome :=
  match parse_argv argv with
  | Option.some args => build_flutter args.flavor args.platform (!args.debug) runner
  | Option.none => { exitCode := 2, calls := [], stdout := [] }

/-- Number of occurrences of token `t` in a token list. -/
def count_tok (t : String) : List String → Nat
  | [] => 0
  | s :: rest => (if s = t then 1 else 0) + count_tok t rest

/-! ### Helper lemmas -/

/-- Unfolding `build_flutter` when the platform is supported. -/
theorem build_flutter_of_compose_some (f p : String) (r : Bool)
    (runner : List String → Nat) (cmd : List String)
    (h : compose_cmd f p r = some cmd) :
    build_flutter f p r runner =
      if runner cmd = 0 then
        { exitCode := 0
          calls := [cmd]
          stdout := [OutputLine.announce cmd, OutputLine.success p f] }
      else
        { exitCode := 1
          calls := [cmd]
          stdout := [OutputLine.announce cmd] } := by
  unfold build_flutter
  rw [h]

/-- Unfolding `build_flutter` when the platform is unsupported. -/
theorem build_flutter_of_compose_none (f p : String) (r : Bool)
    (runner : List String → Nat) (h : compose_cmd f p r = none) :
    build_flutter f p r runner =
      { exitCode := 1, calls := [], stdout := [OutputLine.unsupported p] } := by
  unfold build_flutter
  rw [h]

/-- Whenever composition succeeds, exactly the composed command is run,
whatever the child's exit code. -/
theorem build_flutter_calls_eq (f p : String) (r : Bool)
    (runner : List String → Nat) (cmd : List String)
    (h : compose_cmd f p r = some cmd) :
    (build_flutter f p r runner).calls = [cmd] := by
  rw [build_flutter_of_compose_some f p r runner cmd h]
  split <;> rfl

/-- A platform recognized by neither comparison composes no command. -/
theorem compose_cmd_eq_none (f p : String) (r : Bool)
    (h1 : p ≠ "android") (h2 : p ≠ "ios") :
    compose_cmd f p r = none := by
  unfold compose_cmd
  dsimp only
  rw [if_neg h1, if_neg h2]

/-- The define token is 18 characters plus the flavor. -/
theorem dart_define_length (f : String) :
    ("--dart-define=ENV=" ++ f).length = 18 + f.length := by
  have h : ("--dart-define=ENV=" : String).length = 18 := rfl
  rw [String.length_append, h]

/-- A string shorter than 18 characters is distinct from the define token. -/
theorem ne_dart_define_of_short (s f : String) (hs : s.length < 18) :
    s ≠ "--dart-define=ENV=" ++ f ∧ "--dart-define=ENV=" ++ f ≠ s := by
  constructor
  · intro he
    rw [he, dart_define_length] at hs
    omega
  · intro he
    rw [← he, dart_define_length] at hs
    omega

/-- The flavor itself is never the define token built from it. -/
theorem flavor_ne_dart_define (f : String) : f ≠ "--dart-define=ENV=" ++ f := by
  intro he
  have hl := congrArg String.length he
  rw [dart_define_length] at hl
  omega

/-- Token counts over the composed command shape shared by both platform
branches, for a flavor that is not itself a mode token: exactly one mode
token and exactly one define token. -/
theorem count_tok_build_tokens (f a m : String)
    (hf1 : f ≠ "--release") (hf2 : f ≠ "--debug")
    (ha : a.length < 18) (ha1 : a ≠ "--release") (ha2 : a ≠ "--debug")
    (hm : (m = "--release" ∧ m ≠ "--debug") ∨ (m = "--debug" ∧ m ≠ "--release"))
    (hml : m.length < 18) :
    count_tok "--release" (["flutter", "build", a, "--flavor", f, "-t",
        "lib/main.dart", "--dart-define=ENV=" ++ f] ++ [m]) +
      count_tok "--debug" (["flutter", "build", a, "--flavor", f, "-t",
        "lib/main.dart", "--dart-define=ENV=" ++ f] ++ [m]) = 1 ∧
    count_tok ("--dart-define=ENV=" ++ f) (["flutter", "build", a, "--flavor", f,
        "-t", "lib/main.dart", "--dart-define=ENV=" ++ f] ++ [m]) = 1 := by
  have hd1 := (ne_dart_define_of_short "--release" f (by decide)).2
  have hd2 := (ne_dart_define_of_short "--debug" f (by decide)).2
  have hnf := (ne_dart_define_of_short "flutter" f (by decide)).1
  have hnb := (ne_dart_define_of_short "build" f (by decide)).1
  have hna := (ne_dart_define_of_short a f ha).1
  have hnfl := (ne_dart_define_of_short "--flavor" f (by decide)).1
  have hnt := (ne_dart_define_of_short "-t" f (by decide)).1
  have hnm2 := (ne_dart_define_of_short "lib/main.dart" f (by decide)).1
  have hnmm := (ne_dart_define_of_short m f hml).1
  have hfd := flavor_ne_dart_define f
  rcases hm with ⟨hm1, hm2⟩ | ⟨hm1, hm2⟩ <;> subst hm1 <;>
    simp [count_tok, hf1, hf2, hd1, hd2, hnf, hnb, hna, ha1, ha2, hnfl, hnt,
      hnm2, hnmm, hfd, hm2]

/-! ### Claim theorems -/

/-- C3: for flavor "dev", platform "android" and the debug flag absent
(release = true), the composed token sequence is exactly
["flutter", "build", "apk", "--flavor", "dev", "-t", "lib/main.dart",
"--dart-define=ENV=dev", "--release"], and when the external tool returns
exit code 0 on that command the overall exit code is 0. -/
theorem scenario_dev_android (runner : List String → Nat)
    (h : runner ["flutter", "build", "apk", "--flavor", "dev", "-t", "lib/main.dart",
        "--dart-define=ENV=dev", "--release"] = 0) :
    compose_cmd "dev" "android" true =
      some ["flutter", "build", "apk", "--flavor", "dev", "-t", "lib/main.dart",
        "--dart-define=ENV=dev", "--release"] ∧
    (build_flutter "dev" "android" true runner).exitCode = 0 := by
  have hc : compose_cmd "dev" "android" true =
      some ["flutter", "build", "apk", "--flavor", "dev", "-t", "lib/main.dart",
        "--dart-define=ENV=dev", "--release"] := by decide
  refine ⟨hc, ?_⟩
  rw [build_flutter_of_compose_some "dev" "android" true runner _ hc, if_pos h]

/-- Witness for `scenario_dev_android`: an external tool that returns 0. -/
theorem scenario_dev_android_witness :
    compose_cmd "dev" "android" true =
      some ["flutter", "build", "apk", "--flavor", "dev", "-t", "lib/main.dart",
        "--dart-define=ENV=dev", "--release"] ∧
    (build_flutter "dev" "android" true (fun _ => 0)).exitCode = 0 :=
  scenario_dev_android (fun _ => 0) rfl

/-- C4: for flavor "prod", platform "ios" and the debug flag present
(release = false), the composed token sequence is exactly
["flutter", "build", "ios", "--flavor", "prod", "-t", "lib/main.dart",
"--dart-define=ENV=prod", "--debug"]. -/
theorem scenario_prod_ios :
    compose_cmd "prod" "ios" false =
      some ["flutter", "build", "ios", "--flavor", "prod", "-t", "lib/main.dart",
        "--dart-define=ENV=prod", "--debug"] := by decide

/-- C5: for a platform that is neither "android" nor "ios", and any flavor
and release value, the run exits with code 1, starts no subprocess, and
prints exactly the unsupported-platform error, whose rendered text ends in
the offending platform string. -/
theorem unsupported_platform_rejected (f p : String) (r : Bool)
    (runner : List String → Nat) (h1 : p ≠ "android") (h2 : p ≠ "ios") :
    (build_flutter f p r runner).exitCode = 1 ∧
    (build_flutter f p r runner).calls = [] ∧
    (build_flutter f p r runner).stdout = [OutputLine.unsupported p] ∧
    render (OutputLine.unsupported p) = "❌ 不支持的平台: " ++ p ∧
    List.IsSuffix p.data (render (OutputLine.unsupported p)).data := by
  rw [build_flutter_of_compose_none f p r runner (compose_cmd_eq_none f p r h1 h2)]
  exact ⟨rfl, rfl, rfl, rfl, ⟨"❌ 不支持的平台: ".data, rfl⟩⟩

/-- Witness for `unsupported_platform_rejected` at platform "windows". -/
theorem unsupported_platform_rejected_witness :
    (build_flutter "dev" "windows" true (fun _ => 0)).exitCode = 1 ∧
    (build_flutter "dev" "windows" true (fun _ => 0)).calls = [] ∧
    (build_flutter "dev" "windows" true (fun _ => 0)).stdout =
      [OutputLine.unsupported "windows"] ∧
    render (OutputLine.unsupported "windows") = "❌ 不支持的平台: " ++ "windows" ∧
    List.IsSuffix "windows".data (render (OutputLine.unsupported "windows")).data :=
  unsupported_platform_rejected "dev" "windows" true (fun _ => 0)
    (by decide) (by decide)

/-- C6: command composition is deterministic — it is a pure function of
(flavor, platform, release), and in particular the subprocess invocations
recorded by two runs with the same inputs coincide whatever the external
tool does. -/
theorem compose_deterministic (f p : String) (r : Bool)
    (runner1 runner2 : List String → Nat) :
    compose_cmd f p r = compose_cmd f p r ∧
    (build_flutter f p r runner1).calls = (build_flutter f p r runner2).calls := by
  refine ⟨rfl, ?_⟩
  cases hc : compose_cmd f p r with
  | none =>
      rw [build_flutter_of_compose_none f p r runner1 hc,
        build_flutter_of_compose_none f p r runner2 hc]
  | some cmd =>
      rw [build_flutter_calls_eq f p r runner1 cmd hc,
        build_flutter_calls_eq f p r runner2 cmd hc]

/-- C7: the mode token appended by the second if/else inside each platform
branch always equals the `build_mode` value computed earlier from the same
release flag, and replacing the recomputation by the precomputed value
leaves the composed command unchanged. -/
theorem mode_flag_recompute_equiv (r : Bool) (f p : String) :
    appended_mode r = build_mode r ∧
    compose_cmd_reuse f p r = compose_cmd f p r :=
  ⟨rfl, rfl⟩

/-- C9: platform recognition is exact, case-sensitive string comparison —
"Android", "IOS" and "android " (trailing space) are all rejected with exit
code 1 and no subprocess. -/
theorem platform_match_case_sensitive (f : String) (r : Bool)
    (runner : List String → Nat) :
    (build_flutter f "Android" r runner).exitCode = 1 ∧
    (build_flutter f "Android" r runner).calls = [] ∧
    (build_flutter f "IOS" r runner).exitCode = 1 ∧
    (build_flutter f "IOS" r runner).calls = [] ∧
    (build_flutter f "android " r runner).exitCode = 1 ∧
    (build_flutter f "android " r runner).calls = [] :=
  ⟨rfl, rfl, rfl, rfl, rfl, rfl⟩

/-- C10: the flavor string is never validated — every flavor, the empty
string included, is accepted and the subprocess is invoked on the composed
command; for the empty flavor the command carries the tokens "--flavor", ""
and "--dart-define=ENV=". -/
theorem flavor_not_validated (f : String) (r : Bool)
    (runner : List String → Nat) :
    (build_flutter f "android" r runner).calls =
      [["flutter", "build", "apk", "--flavor", f, "-t", "lib/main.dart",
        "--dart-define=ENV=" ++ f, if r then "--release" else "--debug"]] ∧
    (build_flutter "" "android" r runner).calls =
      [["flutter", "build", "apk", "--flavor", "", "-t", "lib/main.dart",
        "--dart-define=ENV=", if r then "--release" else "--debug"]] :=
  ⟨build_flutter_calls_eq f "android" r runner _ rfl,
   build_flutter_calls_eq "" "android" r runner _ rfl⟩

/-- C2 counterexample: with an external tool that exits 2, the wrapper's
process exit code is 1 (the CPython exit status of the unhandled
`CalledProcessError` raised by `subprocess.run(..., check=True)`), not 2 as
the claim states. -/
theorem exit_code_mismatch_counterexample :
    (build_flutter "dev" "android" true (fun _ => 2)).exitCode = 1 ∧
    ¬ (build_flutter "dev" "android" true (fun _ => 2)).exitCode = 2 := by
  decide

/-- C2 (amended): when the external tool exits non-zero on the composed
command, the wrapper terminates with a non-zero exit status (always 1, from
the uncaught `CalledProcessError`), and the success confirmation message is
not printed. -/
theorem external_failure_exits_nonzero (f p : String) (r : Bool)
    (runner : List String → Nat) (cmd : List String)
    (hc : compose_cmd f p r = some cmd) (hfail : runner cmd ≠ 0) :
    (build_flutter f p r runner).exitCode = 1 ∧
    (build_flutter f p r runner).exitCode ≠ 0 ∧
    (build_flutter f p r runner).stdout = [OutputLine.announce cmd] ∧
    ∀ pl fl, OutputLine.success pl fl ∉ (build_flutter f p r runner).stdout := by
  rw [build_flutter_of_compose_some f p r runner cmd hc, if_neg hfail]
  refine ⟨rfl, Nat.one_ne_zero, rfl, ?_⟩
  intro pl fl hmem
  simp at hmem

/-- Witness for `external_failure_exits_nonzero`: an external tool that
exits 2 on every command. -/
theorem external_failure_exits_nonzero_witness :
    (build_flutter "dev" "android" true (fun _ => 2)).exitCode = 1 ∧
    (build_flutter "dev" "android" true (fun _ => 2)).exitCode ≠ 0 ∧
    (build_flutter "dev" "android" true (fun _ => 2)).stdout =
      [OutputLine.announce ["flutter", "build", "apk", "--flavor", "dev", "-t",
        "lib/main.dart", "--dart-define=ENV=dev", "--release"]] ∧
    ∀ pl fl, OutputLine.success pl fl ∉
      (build_flutter "dev" "android" true (fun _ => 2)).stdout :=
  external_failure_exits_nonzero "dev" "android" true (fun _ => 2)
    ["flutter", "build", "apk", "--flavor", "dev", "-t", "lib/main.dart",
      "--dart-define=ENV=dev", "--release"] (by decide) (by decide)

/-- C8: the CLI entry point maps the optional debug flag to the composer's
release parameter as release = not debug — `--debug` absent gives
release = true, `--debug` present gives release = false — and the runner is
invoked on exactly the command the composer produced. -/
theorem cli_debug_flag_mapping (f p : String) (runner : List String → Nat) :
    main ["--flavor", f, "--platform", p] runner = build_flutter f p true runner ∧
    main ["--flavor", f, "--platform", p, "--debug"] runner =
      build_flutter f p false runner ∧
    ∀ cmd, compose_cmd f p true = some cmd →
      (main ["--flavor", f, "--platform", p] runner).calls = [cmd] := by
  refine ⟨rfl, rfl, ?_⟩
  intro cmd hc
  have hm : main ["--flavor", f, "--platform", p] runner =
      build_flutter f p true runner := rfl
  rw [hm]
  exact build_flutter_calls_eq f p true runner cmd hc

/-- Witness for `cli_debug_flag_mapping` at flavor "dev" and platform
"android": the runner receives exactly the composed command. -/
theorem cli_debug_flag_mapping_witness :
    (main ["--flavor", "dev", "--platform", "android"] (fun _ => 0)).calls =
      [["flutter", "build", "apk", "--flavor", "dev", "-t", "lib/main.dart",
        "--dart-define=ENV=dev", "--release"]] :=
  (cli_debug_flag_mapping "dev" "android" (fun _ => 0)).2.2 _ (by decide)

/-- C1 counterexample: the non-empty flavor "--release" on platform
"android" with release = true composes a command in which the mode token
"--release" occurs twice (once as the flavor value, once as the appended
mode flag), so the composed sequence does not contain exactly one mode
token. -/
theorem mode_token_count_counterexample :
    compose_cmd "--release" "android" true =
      some ["flutter", "build", "apk", "--flavor", "--release", "-t",
        "lib/main.dart", "--dart-define=ENV=--release", "--release"] ∧
    count_tok "--release" ["flutter", "build", "apk", "--flavor", "--release",
        "-t", "lib/main.dart", "--dart-define=ENV=--release", "--release"] +
      count_tok "--debug" ["flutter", "build", "apk", "--flavor", "--release",
        "-t", "lib/main.dart", "--dart-define=ENV=--release", "--release"] = 2 := by
  decide

/-- C1 (amended): for every supported platform, every non-empty flavor that
is not itself one of the two mode tokens, and every release value, the
composed command contains exactly one mode token ("--release" xor
"--debug"), exactly one occurrence of the define token
"--dart-define=ENV=<flavor>", and the platform-specific artifact token
("apk" for android, "ios" for ios). -/
theorem compose_exactly_one_mode_and_define (f p : String) (r : Bool)
    (cmd : List String) (hp : p = "android" ∨ p = "ios") (_hf0 : f ≠ "")
    (hf1 : f ≠ "--release") (hf2 : f ≠ "--debug")
    (hc : compose_cmd f p r = some cmd) :
    count_tok "--release" cmd + count_tok "--debug" cmd = 1 ∧
    count_tok ("--dart-define=ENV=" ++ f) cmd = 1 ∧
    (p = "android" → "apk" ∈ cmd) ∧ (p = "ios" → "ios" ∈ cmd) := by
  rcases hp with hp | hp <;> subst hp
  · have hc2 : some (["flutter", "build", "apk", "--flavor", f, "-t",
        "lib/main.dart", "--dart-define=ENV=" ++ f] ++
        [if r then "--release" else "--debug"]) = some cmd := hc
    have hcmd : cmd = ["flutter", "build", "apk", "--flavor", f, "-t",
        "lib/main.dart", "--dart-define=ENV=" ++ f] ++
        [if r then "--release" else "--debug"] := (Option.some.inj hc2).symm
    subst hcmd
    have hcounts := count_tok_build_tokens f "apk"
      (if r then "--release" else "--debug") hf1 hf2 (by decide) (by decide)
      (by decide) (by cases r <;> simp) (by cases r <;> decide)
    refine ⟨hcounts.1, hcounts.2, fun _ => by simp, fun h => absurd h (by decide)⟩
  · have hc2 : some (["flutter", "build", "ios", "--flavor", f, "-t",
        "lib/main.dart", "--dart-define=ENV=" ++ f] ++
        [if r then "--release" else "--debug"]) = some cmd := hc
    have hcmd : cmd = ["flutter", "build", "ios", "--flavor", f, "-t",
        "lib/main.dart", "--dart-define=ENV=" ++ f] ++
        [if r then "--release" else "--debug"] := (Option.some.inj hc2).symm
    subst hcmd
    have hcounts := count_tok_build_tokens f "ios"
      (if r then "--release" else "--debug") hf1 hf2 (by decide) (by decide)
      (by decide) (by cases r <;> simp) (by cases r <;> decide)
    refine ⟨hcounts.1, hcounts.2, fun h => absurd h (by decide), fun _ => by simp⟩

/-- Witness for `compose_exactly_one_mode_and_define` at flavor "dev",
platform "android", release = true. -/
theorem compose_exactly_one_mode_and_define_witness :
    count_tok "--release" ["flutter", "build", "apk", "--flavor", "dev", "-t",
        "lib/main.dart", "--dart-define=ENV=dev", "--release"] +
      count_tok "--debug" ["flutter", "build", "apk", "--flavor", "dev", "-t",
        "lib/main.dart", "--dart-define=ENV=dev", "--release"] = 1 ∧
    count_tok ("--dart-define=ENV=" ++ "dev")
      ["flutter", "build", "apk", "--flavor", "dev", "-t", "lib/main.dart",
        "--dart-define=ENV=dev", "--release"] = 1 ∧
    ("android" = "android" → "apk" ∈ ["flutter", "build", "apk", "--flavor",
        "dev", "-t", "lib/main.dart", "--dart-define=ENV=dev", "--release"]) ∧
    ("android" = "ios" → "ios" ∈ ["flutter", "build", "apk", "--flavor", "dev",
        "-t", "lib/main.dart", "--dart-define=ENV=dev", "--release"]) :=
  compose_exactly_one_mode_and_define "dev" "android" true
    ["flutter", "build", "apk", "--flavor", "dev", "-t", "lib/main.dart",
      "--dart-define=ENV=dev", "--release"]
    (Or.inl rfl) (by decide) (by decide) (by decide) (by decide)

end Build
